import Mathlib

/-!
# Call Session Gateway — shallow embedding

Shallow embedding of `backend/app/routes/voice_integration.py` (the Call
Session Gateway of the CORA voice backend): JWT mint/verify, idempotent call
creation, the append-only event timeline, and the tool dispatcher with its
envelope contract, together with proofs of the specification's claims about
them.

Conventions of the embedding:
* Python `Dict[str, Any]` payloads are modelled as typed structures whose
  fields are `Option`-valued where the code tests key presence (`k in args`)
  or truthiness (`args.get(k)`).
* Wall-clock reads (`time.time()`, `datetime.utcnow()`) are passed in as
  explicit `Nat` parameters (unix seconds).  The `datetime` library's
  parsing/formatting (`fromisoformat`, `strftime`, `isoformat`) is an
  external collaborator and is passed in as function parameters; a parse
  failure is `none` and models the raised `ValueError`.
* Raised exceptions become `Except`: `HTTPException(status, detail)` is
  `HttpErr`; an arbitrary handler exception is `Exn`.
* The Supabase persistence store is modelled as a list of rows; the unique
  constraint on `calls.twilio_sid` (a contract of the persistence
  collaborator, spec §6) makes the duplicate insert raise.
-/

deriving instance DecidableEq for Except

namespace Cora

/-- `fastapi.HTTPException(status_code, detail)`. -/
structure HttpErr where
  status : Nat
  detail : String
deriving DecidableEq, Repr

/-- An arbitrary exception escaping a tool handler (`except Exception`). -/
structure Exn where
  msg : String
deriving DecidableEq, Repr

/-- `ToolError.code` — `Literal["VALIDATION_FAILED","NOT_FOUND","TOOL_FAILED","TIMEOUT"]`. -/
inductive ErrCode where
  | VALIDATION_FAILED
  | NOT_FOUND
  | TOOL_FAILED
  | TIMEOUT
deriving DecidableEq, Repr

/-- `class ToolError(BaseModel)`. -/
structure ToolError where
  code : ErrCode
  message : String
  retryable : Bool
deriving DecidableEq, Repr

/-- The `contact` sub-dict of `book_showing` args: keys `name`, `phone`,
`email`, each possibly absent. -/
structure Contact where
  name : Option String
  phone : Option String
  email : Option String
deriving DecidableEq, Repr

/-- Union of the `args` dict keys read by the five tool handlers; an absent
key is `none`. -/
structure ToolArgs where
  city : Option String
  minPrice : Option Int
  maxPrice : Option Int
  beds : Option Int
  baths : Option Int
  propertyId : Option String
  datetimeISO : Option String
  contact : Option Contact
  intent : Option String
  budget : Option Int
  timeline : Option String
  financingStatus : Option String
  phone : Option String
  reason : Option String
  queue : Option String
  urgency : Option String
deriving DecidableEq, Repr

/-- `data` dict returned by `handle_book_showing`. -/
structure BookingData where
  confirmation_id : String
  property_id : String
  datetime : String
  contact : Contact
  message : String
deriving DecidableEq, Repr

/-- `data` dict returned by `handle_qualify_lead`. -/
structure LeadData where
  lead_id : String
  score : Int
  intent : String
  budget : Option Int
  timeline : Option String
  financing_status : Option String
  message : String
deriving DecidableEq, Repr

/-- `data` dict returned by `handle_request_callback`. -/
structure CallbackData where
  callback_id : String
  phone : String
  reason : String
  timeframe : String
  message : String
deriving DecidableEq, Repr

/-- `data` dict returned by `handle_transfer_to_human`. -/
structure TransferData where
  transfer_id : String
  queue : String
  urgency : String
  estimated_wait : String
  message : String
deriving DecidableEq, Repr

/-- `data` dict returned by `handle_search_properties` (the per-property
records come from the external property-search service). -/
structure SearchData where
  total : Int
  results : List (List (String × String))
  message : String
deriving DecidableEq, Repr

/-- Tagged union of the handler `data` dict shapes. -/
inductive ToolData where
  | search : SearchData → ToolData
  | booking : BookingData → ToolData
  | lead : LeadData → ToolData
  | callback : CallbackData → ToolData
  | transfer : TransferData → ToolData
deriving DecidableEq, Repr

/-- `class ToolEnvelope(BaseModel)`. -/
structure ToolEnvelope where
  ok : Bool
  data : Option ToolData := none
  error : Option ToolError := none
deriving DecidableEq, Repr

/-! ## Token Service (`create_call_jwt` / `verify_call_jwt`)

A JWT is modelled as its decoded payload plus the secret it was signed with;
`jwt.decode` checks the signature by comparing secrets and then the `exp`
claim against the current time (PyJWT raises `ExpiredSignatureError` when
`exp <= now`, with zero leeway). -/

/-- The claims dict built by `create_call_jwt`.  `iat`/`exp` are unix
seconds. -/
structure JwtPayload where
  sub : String
  tenant_id : String
  scope : List String
  iat : Nat
  exp : Nat
  jti : String
deriving DecidableEq, Repr

/-- A signed token: payload plus signing secret (`jwt.encode(payload, secret)`). -/
structure Token where
  payload : JwtPayload
  secret : String
deriving DecidableEq, Repr

/-- Outcomes of `jwt.decode`: `ExpiredSignatureError` or (any other)
`InvalidTokenError`. -/
inductive JwtDecodeErr where
  | expiredSignature
  | invalidToken
deriving DecidableEq, Repr

/-- `jwt.encode(payload, JWT_SECRET, algorithm=...)`. -/
def jwtEncode (payload : JwtPayload) (secret : String) : Token :=
  ⟨payload, secret⟩

/-- `jwt.decode(token, JWT_SECRET, algorithms=[...])`: signature first, then
the `exp` claim (`exp <= now` is expired, leeway 0). -/
def jwtDecode (token : Token) (secret : String) (now : Nat) :
    Except JwtDecodeErr JwtPayload :=
  if token.secret ≠ secret then .error .invalidToken
  else if token.payload.exp ≤ now then .error .expiredSignature
  else .ok token.payload

/-- `JWT_TTL_MINUTES = int(os.getenv("JWT_TTL_MIN", "15"))` — the environment
value is unconstrained; `15` is only the default. -/
def defaultJwtTtlMinutes : Nat := 15

/-- `create_call_jwt(call_id, tenant_id, request_id)`.  `now` is
`datetime.utcnow()` in unix seconds and `ttlMinutes` is the ambient
`JWT_TTL_MINUTES` configuration.  No validation of `call_id` / `tenant_id`
is performed. -/
def create_call_jwt (ttlMinutes : Nat) (secret : String)
    (call_id tenant_id request_id : String) (now : Nat) : Token :=
  jwtEncode
    { sub := call_id
      tenant_id := tenant_id
      scope := ["events", "tools"]
      iat := now
      exp := now + ttlMinutes * 60
      jti := request_id ++ "_" ++ toString now }
    secret

/-- The dict `{"call_id": ..., "tenant_id": ...}` returned by
`verify_call_jwt`. -/
structure AuthCtx where
  call_id : String
  tenant_id : String
deriving DecidableEq, Repr

/-- The `Authorization` header, split at the first space: scheme and (already
deserialized) token.  `none` models an absent header or one with no token
part. -/
structure AuthHeader where
  scheme : String
  token : Token
deriving DecidableEq, Repr

/-- `verify_call_jwt(authorization)`: require a `Bearer` header, decode the
token, require an `events` or `tools` scope, and return the bound call and
tenant ids. -/
def verify_call_jwt (secret : String) (now : Nat)
    (authorization : Option AuthHeader) : Except HttpErr AuthCtx :=
  match authorization with
  | none => .error ⟨401, "Authorization header required"⟩
  | some h =>
    if h.scheme ≠ "Bearer" then .error ⟨401, "Authorization header required"⟩
    else
      match jwtDecode h.token secret now with
      | .error .expiredSignature => .error ⟨401, "Token expired"⟩
      | .error .invalidToken => .error ⟨401, "Invalid token"⟩
      | .ok payload =>
        if "events" ∉ payload.scope ∧ "tools" ∉ payload.scope then
          .error ⟨403, "Insufficient scope"⟩
        else .ok ⟨payload.sub, payload.tenant_id⟩

/-! ## Call Registry (`create_call`)

The `calls` table is a list of rows.  The persistence collaborator enforces
a unique constraint on `twilio_sid` (spec §6: "unique-constraint inserts"),
so inserting a duplicate raises; `.single()` raises unless the filter
matched exactly one row.  `create_call` is written over two table states —
`findDb`, the snapshot the lookup reads, and `insDb`, the state the insert
runs against — so that both the sequential execution (`findDb = insDb`) and
a racy interleaving of two concurrent requests are instances of the same
body. -/

/-- `class CreateCallRequest(BaseModel)`. -/
structure CreateCallRequest where
  tenant_id : String
  caller_number : String
  agent_number : String
  twilio_sid : String
deriving DecidableEq, Repr

/-- A row of the `calls` table (`started_at` in unix seconds). -/
structure CallRow where
  id : String
  tenant_id : String
  twilio_sid : String
  caller_number : String
  agent_number : String
  started_at : Nat
deriving DecidableEq, Repr

abbrev CallsTable := List CallRow

/-- `table("calls").select("*").eq("twilio_sid", sid)`. -/
def findByTwilioSid (db : CallsTable) (sid : String) : List CallRow :=
  db.filter (fun r => r.twilio_sid == sid)

/-- `.single()`: raises unless the result has exactly one row. -/
def selectSingle (rows : List CallRow) : Except Exn CallRow :=
  match rows with
  | [r] => .ok r
  | _ => .error ⟨"single() requires exactly one row"⟩

/-- `table("calls").insert(call_data)`: the unique constraint on
`twilio_sid` makes a duplicate insert raise. -/
def insertCall (db : CallsTable) (row : CallRow) : Except Exn CallsTable :=
  if db.any (fun r => r.twilio_sid == row.twilio_sid) then
    .error ⟨"duplicate key value violates unique constraint"⟩
  else .ok (db ++ [row])

/-- `class TenantConfig(BaseModel)`. -/
structure TenantConfig where
  id : String
  name : String
  agent_display_name : String
  brand_name : String
deriving DecidableEq, Repr

/-- `class AgentConfig(BaseModel)`. -/
structure AgentConfig where
  id : String
  name : String
deriving DecidableEq, Repr

/-- `class CreateCallResponse(BaseModel)`. -/
structure CreateCallResponse where
  call_id : String
  jwt_token : Token
  tenant : TenantConfig
  agent : AgentConfig
deriving DecidableEq, Repr

/-- Body of `POST /api/calls`: look up an existing call by `twilio_sid`; on
any exception from the lookup, insert a new row (`newId` is the id the store
generates for it); any exception from the insert reaches the outer handler,
which raises `HTTPException(500, "Failed to create call")`.  A JWT is minted
fresh on both paths. -/
def create_call_step (ttlMinutes : Nat) (secret : String)
    (findDb insDb : CallsTable) (request : CreateCallRequest)
    (request_id newId : String) (now : Nat) :
    Except HttpErr (CreateCallResponse × CallsTable) :=
  let found : Except Exn (String × CallsTable) :=
    (selectSingle (findByTwilioSid findDb request.twilio_sid)).map
      (fun r => (r.id, insDb))
  let resolved : Except Exn (String × CallsTable) :=
    match found with
    | .ok v => .ok v
    | .error _ =>
      (insertCall insDb
        { id := newId
          tenant_id := request.tenant_id
          twilio_sid := request.twilio_sid
          caller_number := request.caller_number
          agent_number := request.agent_number
          started_at := now }).map (fun db' => (newId, db'))
  match resolved with
  | .error _ => .error ⟨500, "Failed to create call"⟩
  | .ok (call_id, db') =>
    .ok
      ({ call_id := call_id
         jwt_token :=
           create_call_jwt ttlMinutes secret call_id request.tenant_id
             request_id now
         tenant :=
           { id := request.tenant_id
             name := "Ray Richards Real Estate"
             agent_display_name := "Ray Richards"
             brand_name := "CORA" }
         agent := { id := "agt_ray", name := "Ray Richards" } }, db')

/-- Sequential execution of `create_call`: the lookup and the insert see the
same table state. -/
def create_call (ttlMinutes : Nat) (secret : String) (db : CallsTable)
    (request : CreateCallRequest) (request_id newId : String) (now : Nat) :
    Except HttpErr (CreateCallResponse × CallsTable) :=
  create_call_step ttlMinutes secret db db request request_id newId now

/-- Racy interleaving of two concurrent `create_call` requests: both lookups
read the initial table `db0` (both miss), request A's insert commits first,
then request B's insert runs against A's result.  Returns A's outcome, B's
outcome, and the final table. -/
def create_call_raced (ttlMinutes : Nat) (secret : String) (db0 : CallsTable)
    (reqA reqB : CreateCallRequest) (ridA ridB newIdA newIdB : String)
    (now : Nat) :
    Except HttpErr CreateCallResponse × Except HttpErr CreateCallResponse ×
      CallsTable :=
  match create_call_step ttlMinutes secret db0 db0 reqA ridA newIdA now with
  | .error e => (.error e, .error e, db0)
  | .ok (respA, db1) =>
    match create_call_step ttlMinutes secret db0 db1 reqB ridB newIdB now with
    | .error e => (.ok respA, .error e, db1)
    | .ok (respB, db2) => (.ok respA, .ok respB, db2)

/-! ## Event Timeline (`add_call_event`, read-back from `get_call_detail`)

`CallEvent.type` is `Literal["turn","tool_call","tool_result","status",
"summary"]` and `role` is `Literal["user","assistant"]`; FastAPI rejects a
request body outside those literals with a 422 validation error before the
endpoint function runs, which `parseCallEvent` models.  Timestamps:
`datetime` values are unix seconds; `datetime.fromisoformat` and
`.isoformat()` are the external datetime collaborator, passed in as
`fromisoformat` (with `none` for the raised `ValueError`) and `isoformat`. -/

/-- The closed set of `CallEvent.type` literals. -/
inductive EventType where
  | turn
  | tool_call
  | tool_result
  | status
  | summary
deriving DecidableEq, Repr

/-- The closed set of `CallEvent.role` literals. -/
inductive Role where
  | user
  | assistant
deriving DecidableEq, Repr

/-- `ts: Union[datetime, str]`. -/
inductive TsVal where
  | dt : Nat → TsVal
  | str : String → TsVal
deriving DecidableEq, Repr

/-- `class CallEvent(BaseModel)` after pydantic validation.  The dict-valued
metadata fields (`tool_args`, `tool_result`, `meta`), never read by the
gateway, are modelled as generic string-keyed dicts. -/
structure CallEvent where
  type : EventType
  ts : TsVal
  role : Option Role := none
  text : Option String := none
  ms : Option Int := none
  tool_name : Option String := none
  tool_args : Option (List (String × String)) := none
  tool_result : Option (List (String × String)) := none
  meta : Option (List (String × String)) := none
  outcome : Option String := none
  next_actions : Option (List String) := none
deriving DecidableEq, Repr

/-- An incoming event body before pydantic validation: `type` and `role` are
arbitrary strings. -/
structure RawCallEvent where
  type : String
  ts : TsVal
  role : Option String := none
  text : Option String := none
  ms : Option Int := none
  tool_name : Option String := none
  tool_args : Option (List (String × String)) := none
  tool_result : Option (List (String × String)) := none
  meta : Option (List (String × String)) := none
  outcome : Option String := none
  next_actions : Option (List String) := none
deriving DecidableEq, Repr

/-- The `Literal[...]` check on `CallEvent.type`. -/
def eventTypeOfString : String → Option EventType
  | "turn" => some .turn
  | "tool_call" => some .tool_call
  | "tool_result" => some .tool_result
  | "status" => some .status
  | "summary" => some .summary
  | _ => none

/-- The `Literal[...]` check on `CallEvent.role`. -/
def roleOfString : String → Option Role
  | "user" => some .user
  | "assistant" => some .assistant
  | _ => none

/-- Pydantic validation of the request body: a `type` or `role` outside its
`Literal` set is rejected with a 422 validation error before the endpoint
runs. -/
def parseCallEvent (raw : RawCallEvent) : Except HttpErr CallEvent :=
  match eventTypeOfString raw.type with
  | none => .error ⟨422, "Input should be a valid CallEvent.type literal"⟩
  | some t =>
    let roleRes : Except HttpErr (Option Role) :=
      match raw.role with
      | none => .ok none
      | some r =>
        match roleOfString r with
        | none => .error ⟨422, "Input should be a valid CallEvent.role literal"⟩
        | some ro => .ok (some ro)
    match roleRes with
    | .error e => .error e
    | .ok ro =>
      .ok
        { type := t, ts := raw.ts, role := ro, text := raw.text, ms := raw.ms
          tool_name := raw.tool_name, tool_args := raw.tool_args
          tool_result := raw.tool_result, meta := raw.meta
          outcome := raw.outcome, next_actions := raw.next_actions }

/-- A row of the `call_transcripts` table. -/
structure TranscriptRow where
  call_id : String
  speaker : Option Role
  message : String
  timestamp : String
  sequence_number : Nat
deriving DecidableEq, Repr

abbrev TranscriptsTable := List TranscriptRow

/-- Success bodies of `POST /calls/{call_id}/events`:
`{"ok": True, "skipped": True}` or `{"ok": True, "inserted": n}`. -/
inductive AppendResponse where
  | skipped
  | inserted : Nat → AppendResponse
deriving DecidableEq, Repr

/-- Step 2 of `add_call_event`: normalize the timestamp.  A string is
parsed after `replace('Z', '+00:00')`, with `ValueError` mapped to a 400; a
`datetime` value is used as-is (`evt.ts or datetime.now(...)` — a datetime
object is always truthy). -/
def normalizeTs (fromisoformat : String → Option Nat) :
    TsVal → Except HttpErr Nat
  | .str s =>
    match fromisoformat (s.replace "Z" "+00:00") with
    | none => .error ⟨400, "Invalid timestamp format: " ++ s⟩
    | some t => .ok t
  | .dt d => .ok d

/-- Body of `POST /calls/{call_id}/events` (after validation and the
`verify_call_jwt` dependency).  `now` is `time.time()` in unix seconds.
Steps, as in the source: auth/path check, timestamp normalization, the
turn-with-text filter, then the insert into `call_transcripts` (the pure
store always accepts the row and returns it, so the 502/500 branches for a
failing store collaborator do not arise). -/
def add_call_event (fromisoformat : String → Option Nat)
    (isoformat : Nat → String) (db : TranscriptsTable) (call_id : String)
    (evt : CallEvent) (auth : AuthCtx) (now : Nat) :
    Except HttpErr (AppendResponse × TranscriptsTable) :=
  if auth.call_id ≠ call_id then .error ⟨403, "call_id scope mismatch"⟩
  else
    match normalizeTs fromisoformat evt.ts with
    | .error e => .error e
    | .ok ts =>
      if evt.type ≠ .turn ∨ evt.text.getD "" = "" then .ok (.skipped, db)
      else
        let row : TranscriptRow :=
          { call_id := call_id
            speaker := evt.role
            message := evt.text.getD ""
            timestamp := isoformat ts
            sequence_number := now % 1000000 }
        .ok (.inserted 1, db ++ [row])

/-- `POST /calls/{call_id}/events` end to end: FastAPI validates the body
and resolves the `verify_call_jwt` dependency before the endpoint body
runs. -/
def add_call_event_endpoint (fromisoformat : String → Option Nat)
    (isoformat : Nat → String) (db : TranscriptsTable) (call_id : String)
    (raw : RawCallEvent) (authRes : Except HttpErr AuthCtx) (now : Nat) :
    Except HttpErr (AppendResponse × TranscriptsTable) :=
  match parseCallEvent raw with
  | .error e => .error e
  | .ok evt =>
    match authRes with
    | .error e => .error e
    | .ok auth => add_call_event fromisoformat isoformat db call_id evt auth now

/-- Ascending `sequence_number` order, the `order("sequence_number")`
clause. -/
def seqLe (a b : TranscriptRow) : Prop :=
  a.sequence_number ≤ b.sequence_number

instance : DecidableRel seqLe := fun a b =>
  Nat.decLe a.sequence_number b.sequence_number

instance : IsTotal TranscriptRow seqLe :=
  ⟨fun a b => Nat.le_total a.sequence_number b.sequence_number⟩

instance : IsTrans TranscriptRow seqLe :=
  ⟨fun _ _ _ => Nat.le_trans⟩

/-- Read-back of a call's timeline, as in `get_call_detail`:
`table("call_transcripts").select("*").eq("call_id", call_id)
.order("sequence_number")`. -/
def listTranscripts (db : TranscriptsTable) (call_id : String) :
    List TranscriptRow :=
  List.insertionSort seqLe (db.filter (fun r => r.call_id == call_id))

/-! ## Tool handlers

`handle_book_showing` and `handle_qualify_lead` are modelled from the
source; the remaining three handlers stay abstract (they wrap external
collaborators) and enter the dispatcher as parameters.  `datetime.now()
.strftime('%Y%m%d%H%M%S')` is the parameter `nowCompact`;
`datetime.fromisoformat(s.replace('Z','+00:00')).strftime('%A, %B %d at
%I:%M %p')` is the parameter `fmtShowingTime`, with `none` for the raised
`ValueError`. -/

/-- `"month" in s.lower()` — substring test on the lower-cased string
(working on the character list, where lower-casing is mapping
`Char.toLower`). -/
def containsMonth (s : String) : Bool :=
  decide ("month".toList <:+: s.toList.map Char.toLower)

/-- `handle_book_showing(args, supabase, tenant_id, request_id,
idempotency_key)`.  The idempotency check in the source is
`if idempotency_key: pass` with a `TODO` — it reads the key and does
nothing, so the result does not depend on `idempotency_key` and no prior
result is ever returned. -/
def handle_book_showing (args : ToolArgs) (tenant_id : String)
    (idempotency_key : Option String) (nowCompact : String)
    (fmtShowingTime : String → Option String) : ToolEnvelope :=
  match args.propertyId, args.datetimeISO, args.contact with
  | some propertyId, some datetimeISO, some contact =>
    match contact.name, contact.phone with
    | some cname, some cphone =>
      let _ := idempotency_key
      let _ := tenant_id
      let confirmation_id := "SHOW-" ++ nowCompact
      match fmtShowingTime datetimeISO with
      | none =>
        ⟨false, none, some ⟨.TOOL_FAILED, "Booking system unavailable", true⟩⟩
      | some sched =>
        ⟨true,
          some (.booking
            { confirmation_id := confirmation_id
              property_id := propertyId
              datetime := datetimeISO
              contact := contact
              message :=
                "Perfect! I\x27ve scheduled your showing for " ++ sched ++
                  ". " ++ cname ++ ", I\x27ll send a confirmation to " ++
                  cphone ++ "." }), none⟩
    | _, _ =>
      ⟨false, none, some ⟨.VALIDATION_FAILED, "Missing contact info", false⟩⟩
  | _, _, _ =>
    ⟨false, none, some ⟨.VALIDATION_FAILED, "Missing required fields", false⟩⟩

/-- `handle_qualify_lead(args, supabase, call_id, request_id)`.  A missing
`intent` key raises `KeyError`, caught by the handler's own `except` into a
`TOOL_FAILED` envelope. -/
def handle_qualify_lead (args : ToolArgs) (call_id : String)
    (nowCompact : String) : ToolEnvelope :=
  match args.intent with
  | none =>
    ⟨false, none, some ⟨.TOOL_FAILED, "Lead qualification unavailable", true⟩⟩
  | some intent =>
    let _ := call_id
    let budgetBonus : Bool :=
      match args.budget with
      | some b => b != 0 && decide (300000 < b)
      | none => false
    let financing := args.financingStatus
    let financingBonus : Int :=
      if financing = some "preapproved" then 30
      else if financing = some "prequalified" then 20
      else 0
    let timelineBonus : Bool :=
      match args.timeline with
      | some t => t != "" && containsMonth t
      | none => false
    let score : Int :=
      50 + (if budgetBonus then 20 else 0) + financingBonus +
        (if timelineBonus then 15 else 0)
    let lead_id := "LEAD-" ++ nowCompact
    let message :=
      if 70 ≤ score then
        "Great! You\x27re well-positioned to move forward. Let me help you find the perfect property."
      else
        "I\x27d be happy to help you get started on your real estate journey."
    ⟨true,
      some (.lead
        { lead_id := lead_id
          score := score
          intent := intent
          budget := args.budget
          timeline := args.timeline
          financing_status := financing
          message := message }), none⟩

/-! ## Tool Dispatcher (`execute_tool`) -/

/-- `class ToolExecuteRequest(BaseModel)`.  `tool` is kept as a string —
pydantic's `Literal` check lives in `parseToolExecuteRequest` — so that the
dispatcher's fallback branch is expressible. -/
structure ToolExecuteRequest where
  call_id : String
  tenant_id : String
  tool : String
  args : ToolArgs
deriving DecidableEq, Repr

/-- The closed set of `ToolExecuteRequest.tool` literals. -/
def toolNames : List String :=
  ["search_properties", "book_showing", "qualify_lead", "request_callback",
    "transfer_to_human"]

/-- Pydantic validation of the `execute-tool` body: a `tool` outside the
`Literal` set is rejected with a 422 validation error before the endpoint
runs. -/
def parseToolExecuteRequest (call_id tenant_id tool : String)
    (args : ToolArgs) : Except HttpErr ToolExecuteRequest :=
  if tool ∈ toolNames then .ok ⟨call_id, tenant_id, tool, args⟩
  else .error ⟨422, "Input should be a valid ToolExecuteRequest.tool literal"⟩

/-- The five business handlers as the dispatcher sees them; a `.error`
models an exception escaping the handler.  Signatures follow the call
sites: `book_showing` and `request_callback` receive the tenant id and the
idempotency key, `qualify_lead` receives the call id. -/
structure Handlers where
  search_properties : ToolArgs → Except Exn ToolEnvelope
  book_showing : ToolArgs → String → Option String → Except Exn ToolEnvelope
  qualify_lead : ToolArgs → String → Except Exn ToolEnvelope
  request_callback : ToolArgs → String → Option String → Except Exn ToolEnvelope
  transfer_to_human : ToolArgs → Except Exn ToolEnvelope

/-- The `if/elif` routing chain of `execute_tool`, with the unreachable
`else` returning the `NOT_FOUND` envelope.  The second component records
which handlers were invoked. -/
def routeTool (h : Handlers) (auth : AuthCtx) (request : ToolExecuteRequest)
    (idempotency_key : Option String) :
    Except Exn ToolEnvelope × List String :=
  if request.tool = "search_properties" then
    (h.search_properties request.args, ["search_properties"])
  else if request.tool = "book_showing" then
    (h.book_showing request.args auth.tenant_id idempotency_key,
      ["book_showing"])
  else if request.tool = "qualify_lead" then
    (h.qualify_lead request.args auth.call_id, ["qualify_lead"])
  else if request.tool = "request_callback" then
    (h.request_callback request.args auth.tenant_id idempotency_key,
      ["request_callback"])
  else if request.tool = "transfer_to_human" then
    (h.transfer_to_human request.args, ["transfer_to_human"])
  else
    (.ok ⟨false, none,
      some ⟨.NOT_FOUND, "Unknown tool: " ++ request.tool, false⟩⟩, [])

/-- Body of `POST /tools/execute` (after validation and the
`verify_call_jwt` dependency).  The JWT/request context check raises
`HTTPException(403)` which the `except HTTPException: raise` re-raises; any
other exception is swallowed by the catch-all into a
`TOOL_FAILED`/`"Internal server error"`/`retryable=False` envelope. -/
def execute_tool (h : Handlers) (auth : AuthCtx)
    (request : ToolExecuteRequest) (idempotency_key : Option String) :
    Except HttpErr ToolEnvelope × List String :=
  if auth.tenant_id ≠ request.tenant_id ∨ auth.call_id ≠ request.call_id then
    (.error ⟨403, "Auth context mismatch"⟩, [])
  else
    match routeTool h auth request idempotency_key with
    | (.ok env, log) => (.ok env, log)
    | (.error _, log) =>
      (.ok ⟨false, none,
        some ⟨.TOOL_FAILED, "Internal server error", false⟩⟩, log)

/-- `POST /tools/execute` end to end: FastAPI validates the body and
resolves the `verify_call_jwt` dependency before the endpoint body runs. -/
def execute_tool_endpoint (h : Handlers)
    (authRes : Except HttpErr AuthCtx)
    (parsedReq : Except HttpErr ToolExecuteRequest)
    (idempotency_key : Option String) :
    Except HttpErr ToolEnvelope × List String :=
  match parsedReq with
  | .error e => (.error e, [])
  | .ok request =>
    match authRes with
    | .error e => (.error e, [])
    | .ok auth => execute_tool h auth request idempotency_key

/-- An `args` dict with no keys. -/
def emptyArgs : ToolArgs :=
  { city := none, minPrice := none, maxPrice := none, beds := none
    baths := none, propertyId := none, datetimeISO := none, contact := none
    intent := none, budget := none, timeline := none, financingStatus := none
    phone := none, reason := none, queue := none, urgency := none }

/-- Handlers whose every member raises — a concrete instantiation of the
external business collaborators used by closed scenarios. -/
def raisingHandlers : Handlers :=
  { search_properties := fun _ => .error ⟨"boom"⟩
    book_showing := fun _ _ _ => .error ⟨"boom"⟩
    qualify_lead := fun _ _ => .error ⟨"boom"⟩
    request_callback := fun _ _ _ => .error ⟨"boom"⟩
    transfer_to_human := fun _ => .error ⟨"boom"⟩ }

/-- `raisingHandlers` with `book_showing` wired to the concrete
`handle_book_showing` evaluated at wall-clock instant `nowCompact` (the
`strftime` of the scheduled time is fixed, as both scenario requests carry
the same `datetimeISO`). -/
def bookingHandlersAt (nowCompact : String) : Handlers :=
  { raisingHandlers with
    book_showing := fun a t k =>
      .ok (handle_book_showing a t k nowCompact
        (fun _ => some "Sunday, June 1 at 03:00 PM")) }

/-! ## Lemmas about `create_call` -/

/-- The row `create_call` inserts for a missed lookup. -/
def newCallRow (request : CreateCallRequest) (newId : String) (now : Nat) :
    CallRow :=
  { id := newId
    tenant_id := request.tenant_id
    twilio_sid := request.twilio_sid
    caller_number := request.caller_number
    agent_number := request.agent_number
    started_at := now }

/-- The `CreateCallResponse` for a given call id. -/
def mkCreateCallResponse (ttlMinutes : Nat) (secret : String)
    (call_id tenant_id request_id : String) (now : Nat) : CreateCallResponse :=
  { call_id := call_id
    jwt_token := create_call_jwt ttlMinutes secret call_id tenant_id request_id now
    tenant :=
      { id := tenant_id
        name := "Ray Richards Real Estate"
        agent_display_name := "Ray Richards"
        brand_name := "CORA" }
    agent := { id := "agt_ray", name := "Ray Richards" } }

/-- When the lookup finds exactly one row, `create_call_step` returns its id
and leaves the table untouched. -/
theorem create_call_step_found (ttlMinutes : Nat) (secret : String)
    (findDb insDb : CallsTable) (request : CreateCallRequest)
    (request_id newId : String) (now : Nat) (r : CallRow)
    (hf : findByTwilioSid findDb request.twilio_sid = [r]) :
    create_call_step ttlMinutes secret findDb insDb request request_id newId
        now =
      .ok (mkCreateCallResponse ttlMinutes secret r.id request.tenant_id
        request_id now, insDb) := by
  unfold create_call_step
  rw [hf]
  rfl

/-- When the lookup misses and no row with the same `twilio_sid` exists in
the insert-time table, `create_call_step` appends a fresh row. -/
theorem create_call_step_miss (ttlMinutes : Nat) (secret : String)
    (findDb insDb : CallsTable) (request : CreateCallRequest)
    (request_id newId : String) (now : Nat)
    (hf : findByTwilioSid findDb request.twilio_sid = [])
    (hnew : insDb.any (fun rr => rr.twilio_sid == request.twilio_sid) = false) :
    create_call_step ttlMinutes secret findDb insDb request request_id newId
        now =
      .ok (mkCreateCallResponse ttlMinutes secret newId request.tenant_id
        request_id now, insDb ++ [newCallRow request newId now]) := by
  unfold create_call_step
  rw [hf]
  simp only [selectSingle, Except.map, insertCall, newCallRow, hnew,
    Bool.false_eq_true, if_false]
  rfl

/-- When the lookup misses (zero or several rows) but the insert-time table
already holds a row with the same `twilio_sid`, the unique-constraint
violation propagates to the outer handler: HTTP 500. -/
theorem create_call_step_conflict (ttlMinutes : Nat) (secret : String)
    (findDb insDb : CallsTable) (request : CreateCallRequest)
    (request_id newId : String) (now : Nat)
    (hmiss : ∀ r : CallRow, findByTwilioSid findDb request.twilio_sid ≠ [r])
    (hdup : insDb.any (fun rr => rr.twilio_sid == request.twilio_sid) = true) :
    create_call_step ttlMinutes secret findDb insDb request request_id newId
        now =
      .error ⟨500, "Failed to create call"⟩ := by
  unfold create_call_step
  rcases hf : findByTwilioSid findDb request.twilio_sid with _ | ⟨r, rest⟩
  · simp only [selectSingle, Except.map, insertCall, newCallRow, hdup, if_true]
  · rcases rest with _ | ⟨r2, rest⟩
    · exact absurd hf (hmiss r)
    · simp only [selectSingle, Except.map, insertCall, newCallRow, hdup,
        if_true]

/-! ## Claim C1 -/

/-- C1 (amended): sequentially, repeated `create-call` requests with the
same `twilio_sid` are idempotent — whenever a request succeeds, a repeat of
it (with any fresh request id, generated row id and clock) returns the same
`call_id`, leaves the table unchanged, and exactly one Call row with that
`twilio_sid` exists. -/
theorem create_call_sequentially_idempotent (ttlMinutes : Nat)
    (secret : String) (db : CallsTable) (request : CreateCallRequest)
    (rid1 rid2 newId1 newId2 : String) (now1 now2 : Nat)
    (r1 : CreateCallResponse) (db1 : CallsTable)
    (h : create_call ttlMinutes secret db request rid1 newId1 now1 =
      .ok (r1, db1)) :
    ∃ r2 : CreateCallResponse,
      create_call ttlMinutes secret db1 request rid2 newId2 now2 =
          .ok (r2, db1) ∧
        r2.call_id = r1.call_id ∧
        (findByTwilioSid db1 request.twilio_sid).length = 1 := by
  rcases hf : findByTwilioSid db request.twilio_sid with _ | ⟨r, rest⟩
  · -- lookup missed: the first request inserted a fresh row
    have hfilter : ∀ a ∈ db, ¬ (a.twilio_sid == request.twilio_sid) = true := by
      have hf' := hf
      simp only [findByTwilioSid] at hf'
      exact List.filter_eq_nil_iff.mp hf'
    have hnew : db.any (fun rr => rr.twilio_sid == request.twilio_sid) =
        false := by
      rw [List.any_eq_false]
      exact hfilter
    rw [create_call, create_call_step_miss ttlMinutes secret db db request
      rid1 newId1 now1 hf hnew] at h
    simp only [Except.ok.injEq, Prod.mk.injEq] at h
    obtain ⟨hresp, hdb⟩ := h
    have hf1 : findByTwilioSid db1 request.twilio_sid =
        [newCallRow request newId1 now1] := by
      rw [← hdb]
      simp only [findByTwilioSid, List.filter_append]
      have hnil : db.filter (fun rr => rr.twilio_sid == request.twilio_sid) =
          [] := by
        have hf' := hf
        simp only [findByTwilioSid] at hf'
        exact hf'
      rw [hnil]
      simp [newCallRow]
    refine ⟨mkCreateCallResponse ttlMinutes secret
      (newCallRow request newId1 now1).id request.tenant_id rid2 now2, ?_, ?_, ?_⟩
    · exact create_call_step_found ttlMinutes secret db1 db1 request rid2
        newId2 now2 _ hf1
    · rw [← hresp]
      rfl
    · rw [hf1]
      rfl
  · rcases rest with _ | ⟨r2, rest2⟩
    · -- lookup found exactly one row: nothing was written
      rw [create_call, create_call_step_found ttlMinutes secret db db request
        rid1 newId1 now1 r hf] at h
      simp only [Except.ok.injEq, Prod.mk.injEq] at h
      obtain ⟨hresp, hdb⟩ := h
      have hf1 : findByTwilioSid db1 request.twilio_sid = [r] := by
        rw [← hdb]; exact hf
      refine ⟨mkCreateCallResponse ttlMinutes secret r.id request.tenant_id
        rid2 now2, ?_, ?_, ?_⟩
      · exact create_call_step_found ttlMinutes secret db1 db1 request rid2
          newId2 now2 r hf1
      · rw [← hresp]
        rfl
      · rw [hf1]
        rfl
    · -- two or more rows share the sid: the first request already errored
      have hdup : db.any (fun rr => rr.twilio_sid == request.twilio_sid) =
          true := by
        rw [List.any_eq_true]
        have hr : r ∈ findByTwilioSid db request.twilio_sid := by
          rw [hf]; exact List.mem_cons_self r (r2 :: rest2)
        simp only [findByTwilioSid] at hr
        obtain ⟨hrdb, hrp⟩ := List.mem_filter.mp hr
        exact ⟨r, hrdb, hrp⟩
      rw [create_call, create_call_step_conflict ttlMinutes secret db db
        request rid1 newId1 now1 (by rw [hf]; intro rr hrr; simp at hrr) hdup]
        at h
      exact absurd h (by simp)

/-- C1 counterexample: two concurrent `create-call` requests with the same
`twilio_sid "CA123"` against an empty table, interleaved find/find/insert/
insert — request A succeeds but request B's uniqueness violation is
surfaced as HTTP 500 `"Failed to create call"`, not resolved to the winning
row. -/
theorem create_call_raced_surfaces_500 :
    ((create_call_raced 15 "s" []
        ⟨"t1", "+15550000001", "+15550000002", "CA123"⟩
        ⟨"t1", "+15550000001", "+15550000002", "CA123"⟩
        "ridA" "ridB" "idA" "idB" 0).1.isOk = true) ∧
      (create_call_raced 15 "s" []
        ⟨"t1", "+15550000001", "+15550000002", "CA123"⟩
        ⟨"t1", "+15550000001", "+15550000002", "CA123"⟩
        "ridA" "ridB" "idA" "idB" 0).2.1 =
        .error ⟨500, "Failed to create call"⟩ := by
  decide

/-- C1 witness: the amended theorem applied to a concrete first request
against the empty table. -/
theorem create_call_sequentially_idempotent_witness :
    (create_call 15 "s" [] ⟨"t1", "+15550000001", "+15550000002", "CA123"⟩
        "rid1" "idA" 0 =
      .ok (mkCreateCallResponse 15 "s" "idA" "t1" "rid1" 0,
        [newCallRow ⟨"t1", "+15550000001", "+15550000002", "CA123"⟩ "idA" 0])) ∧
    ∃ r2 : CreateCallResponse,
      create_call 15 "s"
          [newCallRow ⟨"t1", "+15550000001", "+15550000002", "CA123"⟩ "idA" 0]
          ⟨"t1", "+15550000001", "+15550000002", "CA123"⟩ "rid2" "idB" 7 =
          .ok (r2,
            [newCallRow ⟨"t1", "+15550000001", "+15550000002", "CA123"⟩ "idA" 0]) ∧
        r2.call_id = (mkCreateCallResponse 15 "s" "idA" "t1" "rid1" 0).call_id ∧
        (findByTwilioSid
          [newCallRow ⟨"t1", "+15550000001", "+15550000002", "CA123"⟩ "idA" 0]
          "CA123").length = 1 :=
  ⟨by decide,
    create_call_sequentially_idempotent 15 "s" []
      ⟨"t1", "+15550000001", "+15550000002", "CA123"⟩ "rid1" "rid2" "idA" "idB"
      0 7 _ _ (by decide)⟩

/-! ## Claim C2 -/

/-- A turn event carrying text, timestamped with a datetime value. -/
def demoTurn (text : String) : CallEvent :=
  { type := .turn, ts := .dt 0, role := some .user, text := some text }

/-- The table produced by two turn appends to call `"c1"` issued in the
same wall-clock second (`time.time() = 1000` for both). -/
def demoTimelineTwoAppends : TranscriptsTable :=
  match add_call_event (fun _ => some 0) (fun n => toString n) [] "c1"
      (demoTurn "hi") ⟨"c1", "t1"⟩ 1000 with
  | .error _ => []
  | .ok (_, db1) =>
    match add_call_event (fun _ => some 0) (fun n => toString n) db1 "c1"
        (demoTurn "there") ⟨"c1", "t1"⟩ 1000 with
    | .error _ => db1
    | .ok (_, db2) => db2

/-- C2 (amended): the sequence number of every persisted row is computed by
the gateway as `int(time.time()) % 1000000` — not assigned by the store —
and the timeline read back via `List` is sorted by sequence number
(non-decreasingly; duplicates are possible, see the counterexample). -/
theorem add_call_event_seq_is_gateway_clock
    (fromisoformat : String → Option Nat) (isoformat : Nat → String)
    (db : TranscriptsTable) (call_id : String) (evt : CallEvent)
    (auth : AuthCtx) (now : Nat) (n : Nat) (db' : TranscriptsTable)
    (h : add_call_event fromisoformat isoformat db call_id evt auth now =
      .ok (.inserted n, db')) :
    (∃ row : TranscriptRow,
        db' = db ++ [row] ∧ row.sequence_number = now % 1000000) ∧
      ∀ (db2 : TranscriptsTable) (cid : String),
        List.Sorted seqLe (listTranscripts db2 cid) := by
  constructor
  · unfold add_call_event at h
    split at h
    · exact absurd h (by simp)
    · split at h
      · exact absurd h (by simp)
      · split at h
        · exact absurd h (by simp)
        · simp only [Except.ok.injEq, Prod.mk.injEq] at h
          exact ⟨_, h.2.symm, rfl⟩
  · intro db2 cid
    exact List.sorted_insertionSort seqLe _

/-- C2 counterexample: after the two same-second appends of
`demoTimelineTwoAppends`, the read-back sequence numbers are `[1000, 1000]`
— a duplicate, so the series is not strictly increasing (and the numbers
came from the clock, no store counter was consulted). -/
theorem listTranscripts_duplicate_sequence_numbers :
    ((listTranscripts demoTimelineTwoAppends "c1").map
        (fun r => r.sequence_number) = [1000, 1000]) ∧
      ¬ List.Chain' (· < ·)
        ((listTranscripts demoTimelineTwoAppends "c1").map
          (fun r => r.sequence_number)) := by
  have h : (listTranscripts demoTimelineTwoAppends "c1").map
      (fun r => r.sequence_number) = [1000, 1000] := by decide
  refine ⟨h, ?_⟩
  rw [h]
  simp [List.chain'_cons]

/-- C2 witness: the amended theorem applied to one concrete persisted
append. -/
theorem add_call_event_seq_is_gateway_clock_witness :
    (add_call_event (fun _ => some 0) (fun n => toString n) [] "c1"
        (demoTurn "hi") ⟨"c1", "t1"⟩ 1000 =
      .ok (.inserted 1,
        [⟨"c1", some .user, "hi", toString 0, 1000⟩])) ∧
    ((∃ row : TranscriptRow,
        [(⟨"c1", some .user, "hi", toString 0, 1000⟩ : TranscriptRow)] =
            [] ++ [row] ∧
          row.sequence_number = 1000 % 1000000) ∧
      ∀ (db2 : TranscriptsTable) (cid : String),
        List.Sorted seqLe (listTranscripts db2 cid)) :=
  ⟨by decide,
    add_call_event_seq_is_gateway_clock (fun _ => some 0) (fun n => toString n)
      [] "c1" (demoTurn "hi") ⟨"c1", "t1"⟩ 1000 1
      [⟨"c1", some .user, "hi", toString 0, 1000⟩] (by decide)⟩

/-! ## Claim C3 -/

/-- Valid `book_showing` arguments. -/
def bookArgs : ToolArgs :=
  { emptyArgs with
    propertyId := some "P1"
    datetimeISO := some "2025-06-01T15:00:00Z"
    contact := some ⟨some "Ann", some "+15551234567", none⟩ }

/-- C3: the same `book_showing` request with the same idempotency key
`"SHOW-1"`, dispatched twice one second apart, invokes the booking handler
both times and returns two different envelopes (distinct
`confirmation_id`s) — the idempotency check in the source is a `TODO`
`pass`, despite the docstrings "Supports idempotency for booking/callback
tools" and "Book property showing with idempotency". -/
theorem book_showing_idempotency_key_ignored :
    ((execute_tool (bookingHandlersAt "20250601120000") ⟨"c1", "t1"⟩
        ⟨"c1", "t1", "book_showing", bookArgs⟩ (some "SHOW-1")).2 =
      ["book_showing"]) ∧
    ((execute_tool (bookingHandlersAt "20250601120001") ⟨"c1", "t1"⟩
        ⟨"c1", "t1", "book_showing", bookArgs⟩ (some "SHOW-1")).2 =
      ["book_showing"]) ∧
    (execute_tool (bookingHandlersAt "20250601120000") ⟨"c1", "t1"⟩
        ⟨"c1", "t1", "book_showing", bookArgs⟩ (some "SHOW-1")).1 ≠
      (execute_tool (bookingHandlersAt "20250601120001") ⟨"c1", "t1"⟩
        ⟨"c1", "t1", "book_showing", bookArgs⟩ (some "SHOW-1")).1 := by
  decide

/-! ## Claim C4 -/

/-- C4 (amended): whenever the routed handler raises, `execute_tool`
swallows the exception into the structured envelope
`{ok: false, error: {kind: TOOL_FAILED, message: "Internal server error",
retryable: false}}` — `retryable` is `false`, not `true`. -/
theorem execute_tool_handler_exception_enveloped (h : Handlers)
    (auth : AuthCtx) (request : ToolExecuteRequest)
    (idempotency_key : Option String) (e : Exn) (log : List String)
    (hten : auth.tenant_id = request.tenant_id)
    (hcall : auth.call_id = request.call_id)
    (hraise : routeTool h auth request idempotency_key = (.error e, log)) :
    execute_tool h auth request idempotency_key =
      (.ok ⟨false, none,
        some ⟨.TOOL_FAILED, "Internal server error", false⟩⟩, log) := by
  unfold execute_tool
  rw [if_neg (by simp [hten, hcall]), hraise]

/-- C4 counterexample: a raising `search_properties` handler — the envelope
returned carries `retryable = false`, not `retryable = true` as claimed. -/
theorem execute_tool_handler_exception_not_retryable :
    ((execute_tool raisingHandlers ⟨"c1", "t1"⟩
        ⟨"c1", "t1", "search_properties", emptyArgs⟩ none).1 =
      .ok ⟨false, none,
        some ⟨.TOOL_FAILED, "Internal server error", false⟩⟩) ∧
    (execute_tool raisingHandlers ⟨"c1", "t1"⟩
        ⟨"c1", "t1", "search_properties", emptyArgs⟩ none).1 ≠
      .ok ⟨false, none,
        some ⟨.TOOL_FAILED, "Internal server error", true⟩⟩ := by
  decide

/-- C4 witness: the amended theorem applied to the raising handlers. -/
theorem execute_tool_handler_exception_enveloped_witness :
    (routeTool raisingHandlers ⟨"c1", "t1"⟩
        ⟨"c1", "t1", "search_properties", emptyArgs⟩ none =
      (.error ⟨"boom"⟩, ["search_properties"])) ∧
    execute_tool raisingHandlers ⟨"c1", "t1"⟩
        ⟨"c1", "t1", "search_properties", emptyArgs⟩ none =
      (.ok ⟨false, none,
        some ⟨.TOOL_FAILED, "Internal server error", false⟩⟩,
        ["search_properties"]) :=
  ⟨by decide,
    execute_tool_handler_exception_enveloped raisingHandlers ⟨"c1", "t1"⟩
      ⟨"c1", "t1", "search_properties", emptyArgs⟩ none ⟨"boom"⟩
      ["search_properties"] rfl rfl (by decide)⟩

/-! ## Claim C5 -/

/-- C5: when the token's bound (call_id, tenant_id) does not exactly equal
the request's declared pair, `execute_tool` fails closed with
`HTTPException(403, "Auth context mismatch")` and no handler is invoked
(the invocation log is empty, for every possible handler assignment). -/
theorem execute_tool_auth_mismatch_forbidden (h : Handlers) (auth : AuthCtx)
    (request : ToolExecuteRequest) (idempotency_key : Option String)
    (hmis : auth.tenant_id ≠ request.tenant_id ∨
      auth.call_id ≠ request.call_id) :
    execute_tool h auth request idempotency_key =
      (.error ⟨403, "Auth context mismatch"⟩, []) := by
  unfold execute_tool
  rw [if_pos hmis]

/-- C5 witness: a request declaring tenant `"t2"` under a token bound to
tenant `"t1"`. -/
theorem execute_tool_auth_mismatch_forbidden_witness :
    (("t1" ≠ "t2") ∨ ("c1" ≠ "c1")) ∧
      execute_tool raisingHandlers ⟨"c1", "t1"⟩
          ⟨"c1", "t2", "search_properties", emptyArgs⟩ none =
        (.error ⟨403, "Auth context mismatch"⟩, []) :=
  ⟨Or.inl (by decide),
    execute_tool_auth_mismatch_forbidden raisingHandlers ⟨"c1", "t1"⟩
      ⟨"c1", "t2", "search_properties", emptyArgs⟩ none (Or.inl (by decide))⟩

/-! ## Claim C6 -/

/-- C6: presenting a token minted for `(call_id, tenant_id)` strictly
before its expiry, `verify_call_jwt` returns exactly that pair; presenting
it strictly after its expiry fails with 401 "Token expired"
(`ExpiredSignatureError`). -/
theorem verify_call_jwt_roundtrip_and_expiry (ttlMinutes : Nat)
    (secret call_id tenant_id request_id : String) (mintTime now : Nat) :
    (now < mintTime + ttlMinutes * 60 →
      verify_call_jwt secret now (some ⟨"Bearer",
          create_call_jwt ttlMinutes secret call_id tenant_id request_id
            mintTime⟩) =
        .ok ⟨call_id, tenant_id⟩) ∧
    (mintTime + ttlMinutes * 60 < now →
      verify_call_jwt secret now (some ⟨"Bearer",
          create_call_jwt ttlMinutes secret call_id tenant_id request_id
            mintTime⟩) =
        .error ⟨401, "Token expired"⟩) := by
  constructor
  · intro hlt
    have hne : ¬ (mintTime + ttlMinutes * 60 ≤ now) := by omega
    simp [verify_call_jwt, create_call_jwt, jwtEncode, jwtDecode, hne]
  · intro hgt
    have hle : mintTime + ttlMinutes * 60 ≤ now := by omega
    simp [verify_call_jwt, create_call_jwt, jwtEncode, jwtDecode, hle]

/-- C6 witness: a token minted at time 0 with the default 15-minute TTL —
verified at time 10 it yields its bound pair, at time 1000 it is
expired. -/
theorem verify_call_jwt_roundtrip_and_expiry_witness :
    ((10 : Nat) < 0 + 15 * 60 ∧
      verify_call_jwt "s" 10 (some ⟨"Bearer",
          create_call_jwt 15 "s" "c1" "t1" "r1" 0⟩) = .ok ⟨"c1", "t1"⟩) ∧
    (0 + 15 * 60 < (1000 : Nat) ∧
      verify_call_jwt "s" 1000 (some ⟨"Bearer",
          create_call_jwt 15 "s" "c1" "t1" "r1" 0⟩) =
        .error ⟨401, "Token expired"⟩) :=
  ⟨⟨by decide,
      (verify_call_jwt_roundtrip_and_expiry 15 "s" "c1" "t1" "r1" 0 10).1
        (by decide)⟩,
    ⟨by decide,
      (verify_call_jwt_roundtrip_and_expiry 15 "s" "c1" "t1" "r1" 0 1000).2
        (by decide)⟩⟩

/-! ## Claim C7 -/

/-- C7 (amended): for an authorized request whose event parses (its `type`
is one of the five declared literals) and whose timestamp normalizes, any
event that is not a turn with non-empty text yields
`{ok: true, skipped: true}` with the table untouched; conversely a row is
only ever persisted for a turn with non-empty text.  Event types outside
the literal set — such as `"prompt"` — never reach this code path: they are
rejected by validation (see the counterexample). -/
theorem add_call_event_skips_non_turns (fromisoformat : String → Option Nat)
    (isoformat : Nat → String) (db : TranscriptsTable) (call_id : String)
    (evt : CallEvent) (auth : AuthCtx) (now : Nat) (t : Nat)
    (hauth : auth.call_id = call_id)
    (hts : normalizeTs fromisoformat evt.ts = .ok t)
    (hskip : evt.type ≠ .turn ∨ evt.text.getD "" = "") :
    (add_call_event fromisoformat isoformat db call_id evt auth now =
      .ok (.skipped, db)) ∧
    ∀ (evt' : CallEvent) (resp : AppendResponse) (db' : TranscriptsTable),
      add_call_event fromisoformat isoformat db call_id evt' auth now =
        .ok (resp, db') → db' ≠ db →
        evt'.type = .turn ∧ evt'.text.getD "" ≠ "" := by
  constructor
  · unfold add_call_event
    rw [if_neg (by simp [hauth]), hts]
    simp only [if_pos hskip]
  · intro evt' resp db' h hne
    unfold add_call_event at h
    split at h
    · exact absurd h (by simp)
    · split at h
      · exact absurd h (by simp)
      · split at h
        · simp only [Except.ok.injEq, Prod.mk.injEq] at h
          exact absurd h.2.symm hne
        · next hcond =>
          rw [not_or] at hcond
          exact ⟨not_not.mp hcond.1, hcond.2⟩

/-- C7 counterexample: an `append-event` body with type `"prompt"` does not
produce `{ok: true, skipped: true}` — pydantic rejects it with a 422
validation error before the endpoint runs, because `"prompt"` is not in the
`CallEvent.type` literal set. -/
theorem add_call_event_prompt_is_validation_error :
    add_call_event_endpoint (fun _ => some 0) (fun n => toString n) [] "c1"
        { type := "prompt", ts := .dt 0 } (.ok ⟨"c1", "t1"⟩) 0 =
      .error ⟨422, "Input should be a valid CallEvent.type literal"⟩ := by
  decide

/-- C7 witness: a `status` event is accepted but skipped, with no row
persisted. -/
theorem add_call_event_skips_non_turns_witness :
    ((⟨"c1", "t1"⟩ : AuthCtx).call_id = "c1" ∧
      normalizeTs (fun _ => some 0) (.dt 5) = .ok 5 ∧
      ((.status : EventType) ≠ .turn ∨
        (Option.none.getD "" : String) = "")) ∧
    ((add_call_event (fun _ => some 0) (fun n => toString n) [] "c1"
        { type := .status, ts := .dt 5 } ⟨"c1", "t1"⟩ 77 =
      .ok (.skipped, [])) ∧
    ∀ (evt' : CallEvent) (resp : AppendResponse) (db' : TranscriptsTable),
      add_call_event (fun _ => some 0) (fun n => toString n) [] "c1"
          evt' ⟨"c1", "t1"⟩ 77 =
        .ok (resp, db') → db' ≠ [] →
        evt'.type = .turn ∧ evt'.text.getD "" ≠ "") :=
  ⟨⟨rfl, rfl, Or.inl (by decide)⟩,
    add_call_event_skips_non_turns (fun _ => some 0) (fun n => toString n)
      [] "c1" { type := .status, ts := .dt 5 } ⟨"c1", "t1"⟩ 77 5 rfl rfl
      (Or.inl (by decide))⟩

/-! ## Claim C8 -/

/-- C8 (amended): a tool name outside the closed set never reaches the
dispatcher — pydantic rejects the request with a 422 validation error — and
the dispatcher's own fallback branch, were it reached with such a name,
would return the `{ok: false, error: {kind: NOT_FOUND, retryable: false}}`
envelope without invoking any handler. -/
theorem unknown_tool_rejected_before_dispatch (tool : String)
    (hmem : tool ∉ toolNames) :
    (∀ (call_id tenant_id : String) (args : ToolArgs),
      parseToolExecuteRequest call_id tenant_id tool args =
        .error ⟨422, "Input should be a valid ToolExecuteRequest.tool literal"⟩) ∧
    (∀ (h : Handlers) (auth : AuthCtx) (request : ToolExecuteRequest)
        (idempotency_key : Option String),
      request.tool = tool → auth.tenant_id = request.tenant_id →
      auth.call_id = request.call_id →
      execute_tool h auth request idempotency_key =
        (.ok ⟨false, none,
          some ⟨.NOT_FOUND, "Unknown tool: " ++ tool, false⟩⟩, [])) := by
  simp only [toolNames, List.mem_cons, List.mem_singleton, not_or] at hmem
  obtain ⟨h1, h2, h3, h4, h5⟩ := hmem
  constructor
  · intro cid tid args
    unfold parseToolExecuteRequest
    rw [if_neg (by simp [toolNames, h1, h2, h3, h4, h5])]
  · intro hs auth request idempotency_key htool hten hcall
    unfold execute_tool
    rw [if_neg (by simp [hten, hcall])]
    unfold routeTool
    rw [htool]
    simp only [h1, h2, h3, h4, h5, if_false]

/-- C8 counterexample: `execute-tool` with tool name `"launch_missiles"`
responds with the 422 validation error, not with the claimed
`{ok: false, error: {kind: NOT_FOUND, retryable: false}}` envelope. -/
theorem launch_missiles_is_validation_error :
    (execute_tool_endpoint raisingHandlers (.ok ⟨"c1", "t1"⟩)
        (parseToolExecuteRequest "c1" "t1" "launch_missiles" emptyArgs)
        none =
      (.error ⟨422, "Input should be a valid ToolExecuteRequest.tool literal"⟩,
        [])) ∧
    (execute_tool_endpoint raisingHandlers (.ok ⟨"c1", "t1"⟩)
        (parseToolExecuteRequest "c1" "t1" "launch_missiles" emptyArgs)
        none).1 ≠
      .ok ⟨false, none,
        some ⟨.NOT_FOUND, "Unknown tool: launch_missiles", false⟩⟩ := by
  decide

/-- C8 witness: the amended theorem applied to `"launch_missiles"`. -/
theorem unknown_tool_rejected_before_dispatch_witness :
    ("launch_missiles" ∉ toolNames) ∧
    ((∀ (call_id tenant_id : String) (args : ToolArgs),
      parseToolExecuteRequest call_id tenant_id "launch_missiles" args =
        .error ⟨422, "Input should be a valid ToolExecuteRequest.tool literal"⟩) ∧
    (∀ (h : Handlers) (auth : AuthCtx) (request : ToolExecuteRequest)
        (idempotency_key : Option String),
      request.tool = "launch_missiles" → auth.tenant_id = request.tenant_id →
      auth.call_id = request.call_id →
      execute_tool h auth request idempotency_key =
        (.ok ⟨false, none,
          some ⟨.NOT_FOUND, "Unknown tool: " ++ "launch_missiles", false⟩⟩,
          []))) :=
  ⟨by decide, unknown_tool_rejected_before_dispatch "launch_missiles"
    (by decide)⟩

/-! ## Claim C9 -/

/-- C9 (amended): for every configuration of `JWT_TTL_MIN` the minted
token's expiry minus its issued-at is exactly the configured TTL in seconds
— the 15-minute figure is only the default, no maximum is enforced — and
minting performs no validation of `call_id` / `tenant_id`. -/
theorem create_call_jwt_ttl_exact (ttlMinutes : Nat)
    (secret call_id tenant_id request_id : String) (now : Nat) :
    ((create_call_jwt ttlMinutes secret call_id tenant_id request_id
          now).payload.exp -
        (create_call_jwt ttlMinutes secret call_id tenant_id request_id
          now).payload.iat =
      ttlMinutes * 60) ∧
    ((create_call_jwt defaultJwtTtlMinutes secret call_id tenant_id
          request_id now).payload.exp -
        (create_call_jwt defaultJwtTtlMinutes secret call_id tenant_id
          request_id now).payload.iat ≤
      15 * 60) := by
  constructor
  · simp [create_call_jwt, jwtEncode]
  · simp [create_call_jwt, jwtEncode, defaultJwtTtlMinutes]

/-- C9 counterexample: with the TTL setting configured to 16 minutes the
minted token lives 960 seconds — more than 15 minutes — and a token is
minted for empty call and tenant ids without error. -/
theorem create_call_jwt_ttl_unbounded :
    ¬ ((create_call_jwt 16 "s" "" "" "r" 0).payload.exp -
        (create_call_jwt 16 "s" "" "" "r" 0).payload.iat ≤ 15 * 60) ∧
    (create_call_jwt 16 "s" "" "" "r" 0).payload.sub = "" ∧
    (create_call_jwt 16 "s" "" "" "r" 0).payload.tenant_id = "" := by
  decide

/-! ## Claim C10 -/

/-- C10: every successful `qualify_lead` result carries a score equal to 50
plus exactly the three bonuses — 20 when the budget exceeds 300000, 30 when
financing is "preapproved" (20 when "prequalified"), 15 when the timeline
contains "month" (case-insensitively) — so the score always lies between 50
and 115 inclusive. -/
theorem handle_qualify_lead_score_formula (args : ToolArgs)
    (call_id nowCompact : String) (d : LeadData)
    (h : (handle_qualify_lead args call_id nowCompact).data =
      some (.lead d)) :
    d.score = 50 + (if 300000 < args.budget.getD 0 then 20 else 0) +
        (if args.financingStatus = some "preapproved" then 30
         else if args.financingStatus = some "prequalified" then 20 else 0) +
        (if containsMonth (args.timeline.getD "") then 15 else 0) ∧
      50 ≤ d.score ∧ d.score ≤ 115 := by
  unfold handle_qualify_lead at h
  cases hint : args.intent with
  | none =>
    rw [hint] at h
    simp at h
  | some intent =>
    rw [hint] at h
    simp only [Option.some.injEq, ToolData.lead.injEq] at h
    have hbudget : (match args.budget with
        | some b => b != 0 && decide (300000 < b)
        | none => false) = decide (300000 < args.budget.getD 0) := by
      cases args.budget with
      | none => decide
      | some b =>
        simp only [Option.getD_some]
        by_cases h3 : (300000 : Int) < b
        · have hb0 : b ≠ 0 := by omega
          simp [h3, hb0]
        · simp [h3]
    have htimeline : (match args.timeline with
        | some t => t != "" && containsMonth t
        | none => false) = containsMonth (args.timeline.getD "") := by
      cases args.timeline with
      | none => decide
      | some t =>
        simp only [Option.getD_some]
        by_cases ht : t = ""
        · subst ht
          decide
        · simp [ht]
    have hscore : d.score =
        50 + (if 300000 < args.budget.getD 0 then 20 else 0) +
          (if args.financingStatus = some "preapproved" then 30
           else if args.financingStatus = some "prequalified" then 20 else 0) +
          (if containsMonth (args.timeline.getD "") then 15 else 0) := by
      rw [← h]
      simp only [hbudget, htimeline, decide_eq_true_eq]
    refine ⟨hscore, ?_, ?_⟩ <;> rw [hscore] <;> split_ifs <;> omega

/-- The `qualify_lead` args of the C10 witness. -/
def leadArgs : ToolArgs :=
  { emptyArgs with
    intent := some "buy"
    budget := some 400000
    financingStatus := some "preapproved"
    timeline := some "next Month" }

/-- The lead record `handle_qualify_lead` produces for `leadArgs`. -/
def demoLead : LeadData :=
  { lead_id := "LEAD-20250101"
    score := 115
    intent := "buy"
    budget := some 400000
    timeline := some "next Month"
    financing_status := some "preapproved"
    message := "Great! You\x27re well-positioned to move forward. Let me help you find the perfect property." }

/-- C10 witness: the theorem applied to a fully-qualified lead, whose score
is the maximal 115. -/
theorem handle_qualify_lead_score_formula_witness :
    ((handle_qualify_lead leadArgs "c1" "20250101").data =
      some (.lead demoLead)) ∧
    (demoLead.score =
        50 + (if 300000 < leadArgs.budget.getD 0 then 20 else 0) +
          (if leadArgs.financingStatus = some "preapproved" then 30
           else if leadArgs.financingStatus = some "prequalified" then 20
           else 0) +
          (if containsMonth (leadArgs.timeline.getD "") then 15 else 0) ∧
      50 ≤ demoLead.score ∧ demoLead.score ≤ 115) :=
  ⟨by decide,
    handle_qualify_lead_score_formula leadArgs "c1" "20250101" demoLead
      (by decide)⟩

end Cora
